import Mathlib

/- Verification of the compose-struct record-synthesis engine.

   This file is a shallow embedding of the Python sources
   `src/compose/structs.py` and `src/compose/mkmeth.py`:

   * method-body templates are modelled as the exact character sequences the
     Python code builds (`trunc_source` output), and the template-expansion
     machinery (`update_template`, `add_attr`, `mkmethod`) as the same string
     surgery (split at the first parenthesis, textual replacement,
     concatenation);
   * the field classifier (`sort_types`), the record builder (`struct`) and
     the composer (`compose`) are modelled over an explicit declaration data
     type, with class namespaces as ordered association lists;
   * instance-level attribute semantics (slots, the frozen write guard, the
     composed attribute-write template) are modelled by an explicit write
     relation. -/

namespace ComposeStruct

/-- Method source text as a list of characters; the Python engine manipulates
plain strings. -/
abbrev Src := List Char

/-- Prefix test on character lists. -/
def leadEq : Src → Src → Bool
  | [], _ => true
  | _ :: _, [] => false
  | p :: ps, c :: cs => p == c && leadEq ps cs

/-- Fuel-driven worker for `replaceAll`; fuel bounds the number of characters
consumed, and each step consumes at least one, so fuel equal to the length of
the string is always enough. -/
def replAux (pat rep : Src) : Nat → Src → Src
  | 0, s => s
  | _ + 1, [] => []
  | fuel + 1, c :: rest =>
    if !pat.isEmpty && leadEq pat (c :: rest) then
      rep ++ replAux pat rep fuel (List.drop (pat.length - 1) rest)
    else
      c :: replAux pat rep fuel rest

/-- Python `str.replace`: replace every non-overlapping occurrence of `pat`
by `rep`, scanning left to right. -/
def replaceAll (pat rep s : Src) : Src :=
  replAux pat rep s.length s

/-- Python `temp.split('(', maxsplit=1)[1]`: everything after the first
opening parenthesis. -/
def afterParen : Src → Src
  | [] => []
  | c :: rest => if c = '(' then rest else afterParen rest

/-- `mkmeth.update_template`: drop the template's `def` head up to the first
parenthesis, apply the replacements, and glue a new `def name(` head on. -/
def updateTemplate (temp : Src) (name : String) (reps : List (Src × Src)) : Src :=
  let body := reps.foldl (fun t pr => replaceAll pr.1 pr.2 t) (afterParen temp)
  ("def " ++ name ++ "(").data ++ body

/-- Ordered string-keyed dictionary lookup (first match), as for a Python
`dict` access. -/
def dget {α : Type _} : List (String × α) → String → Option α
  | [], _ => none
  | (k, v) :: t, n => if k = n then some v else dget t n

/-- Ordered string-keyed dictionary update: overwrite the first entry with the
given key, or append a new entry, as for a Python `dict` assignment. -/
def dset {α : Type _} : List (String × α) → String → α → List (String × α)
  | [], k, v => [(k, v)]
  | (k1, v1) :: t, k, v => if k1 = k then (k, v) :: t else (k1, v1) :: dset t k v

/- The twelve hand-written canonical templates of `get_templates` in
`structs.py`, exactly as `trunc_source` yields them (dedented source lines,
trailing newline kept). -/

def srcGetitem : Src := "def __getitem__(self, index): return self.attr[index]\n".data

def srcSetitem : Src := "def __setitem__(self, index, value): self.attr[index] = value\n".data

def srcDelitem : Src := "def __delitem__(self, index): del self.attr[index]\n".data

def srcGetattr : Src := "def __getattr__(self, attr): return getattr(self.attr, attr)\n".data

def srcSetattr : Src :=
  ("def __setattr__(self, attr, value):\n" ++
   "    if attr in self.__slots__:\n" ++
   "        object.__setattr__(self, attr, value)\n" ++
   "    else:\n" ++
   "        setattr(self.attr, attr, value)\n").data

def srcGet : Src := "def __get__(self): return self.attr\n".data

def srcSet : Src := "def __set__(self, val): self.attr = val\n".data

def srcAdd : Src := "def __add__(self, other): return self.attr + other\n".data

def srcRadd : Src := "def __radd__(self, other): return other + self.attr\n".data

def srcIadd : Src := "def __iadd__(self, other): self.attr += other\n".data

def srcPos : Src := "def __pos__(self): return +self.attr\n".data

def srcIter : Src := "def __iter__(self): return iter(self.attr)\n".data

/-- The template dictionary right after the `@trunc_source class templates`
declaration, in class-body order. -/
def templates0 : List (String × Src) :=
  [("__getitem__", srcGetitem), ("__setitem__", srcSetitem),
   ("__delitem__", srcDelitem), ("__getattr__", srcGetattr),
   ("__setattr__", srcSetattr), ("__get__", srcGet), ("__set__", srcSet),
   ("__add__", srcAdd), ("__radd__", srcRadd), ("__iadd__", srcIadd),
   ("__pos__", srcPos), ("__iter__", srcIter)]

/-- `op_temp` in `get_templates`: derive the operation `__name__` from a
canonical template by replacing the `+` symbol, and store it. -/
def opTemp (d : List (String × Src)) (temp : Src) (name op : String) : List (String × Src) :=
  dset d ("__" ++ name ++ "__") (updateTemplate temp ("__" ++ name ++ "__") [(("+").data, op.data)])

/-- The binary-operator loop data: `zip(ops, ns)` for
`'- * @ / // % ** << >> & ^ |'` against
`'sub mul matmul truediv floordiv mod pow lshift rshift and xor or'`. -/
def binOpPairs : List (String × String) :=
  [("-", "sub"), ("*", "mul"), ("@", "matmul"), ("/", "truediv"),
   ("//", "floordiv"), ("%", "mod"), ("**", "pow"), ("<<", "lshift"),
   (">>", "rshift"), ("&", "and"), ("^", "xor"), ("|", "or")]

/-- The comparison loop data: `zip('== != > < >= <='.split(), 'eq ne gt lt ge le'.split())`. -/
def cmpPairs : List (String × String) :=
  [("==", "eq"), ("!=", "ne"), (">", "gt"), ("<", "lt"), (">=", "ge"), ("<=", "le")]

/-- The names derived from the `__iter__` template by replacing the word
`iter`. -/
def iterDerived : List String :=
  ["repr", "str", "bytes", "hash", "dir", "bool", "reversed", "len", "iter",
   "abs", "complex", "int", "float"]

/-- The full template store, as `get_templates()` leaves it: the twelve
hand-written bodies, the forward/reverse/in-place binary operators derived
from `__add__`/`__radd__`/`__iadd__`, the six comparisons derived from
`__add__`, `__contains__` from `__radd__`, `__neg__` and `__invert__` from
`__pos__`, and the coercions derived from `__iter__`. -/
def templates : List (String × Src) :=
  let d := templates0
  let d := binOpPairs.foldl
    (fun d pr =>
      let d := opTemp d srcAdd pr.2 pr.1
      let d := opTemp d srcRadd ("r" ++ pr.2) pr.1
      opTemp d srcIadd ("i" ++ pr.2) pr.1) d
  let d := cmpPairs.foldl (fun d pr => opTemp d srcAdd pr.2 pr.1) d
  let d := opTemp d srcRadd "contains" "in"
  let d := opTemp d srcPos "neg" "-"
  let d := opTemp d srcPos "invert" "~"
  iterDerived.foldl
    (fun d f =>
      dset d ("__" ++ f ++ "__")
        (updateTemplate srcIter ("__" ++ f ++ "__") [(("iter").data, f.data)])) d

/-- `add_attr` in `structs.py`: substitute the delegate placeholder
`self.attr` by `self.<attr>` in a rendered template. -/
def addAttr (t : Src) (attr : String) : Src :=
  replaceAll ("self.attr").data ("self." ++ attr).data t

/-- The `interfaces` table of `structs.py` after the dunder expansion:
symbolic operator categories mapped to concrete operation names. -/
def interfaces : List (String × List String) :=
  [("+", ["__add__", "__radd__"]), ("-", ["__sub__", "__rsub__"]),
   ("*", ["__mul__", "__rmul__"]), ("@", ["__matmul__", "__rmatmul__"]),
   ("/", ["__truediv__", "__rtruediv__"]), ("//", ["__floordiv__", "__rfloordiv__"]),
   ("%", ["__mod__", "__rmod__"]), ("**", ["__pow__", "__rpow__"]),
   ("<<", ["__lshift__", "__rlshift__"]), (">>", ["__rshift__", "__rrshift__"]),
   ("&", ["__and__", "__rand__"]), ("^", ["__xor__", "__rxor__"]),
   ("|", ["__or__", "__ror__"]), ("~", ["__invert__"]),
   ("==", ["__eq__"]), ("!=", ["__ne__"]), (">", ["__gt__"]),
   ("<", ["__lt__"]), (">=", ["__ge__"]), ("<=", ["__le__"]),
   ("()", ["__call__"]), ("[]", ["__getitem__", "__setitem__", "__delitem__"]),
   (".", ["__get__", "__set__", "__delete__", "__set_name__"]),
   ("in", ["__contains__"]), ("for", ["__iter__"]),
   ("with", ["__enter__", "__exit__"]), ("del", ["__del__"]),
   ("await", ["__await__"])]

/-- `NO_INHERIT` in `structs.py`. -/
def NO_INHERIT : List String := ["__getattribute__", "__setattr__"]

/-- `DEFAULTS` in `structs.py`: class-dict keys the field classifier skips. -/
def DEFAULTS : List String :=
  ["__module__", "__qualname__", "__slots__", "__doc__", "__dict__",
   "__weakref__", "__annotations__"]

/-- The default method signature of `mkmeth.mkmethod`. -/
def mkSig : String := "(self, *args, **kwargs)"

/-- `mkmeth.call_from_meth_sig` on a string signature:
`sig.replace('(self, ', '(')`. -/
def callFromMethSig (sig : String) : Src :=
  replaceAll ("(self, ").data ("(").data sig.data

/-- `mkmeth.mkmethod` for a string operation name with the default signature:
the generic forwarding method
`def N(self, *args, **kwargs): return self.<attr>.N(*args, **kwargs)`,
assembled from the same parts as the Python code. -/
def mkmethodSrc (attr name : String) : Src :=
  ("def " ++ name ++ mkSig ++ ": " ++ "return " ++ "self." ++ attr ++ "." ++ name).data
    ++ callFromMethSig mkSig

/-- `getmethod` in `structs.py`, up to the final `exec`: render the stored
template for the operation when there is one, otherwise fall back to the
generic forwarder from `mkmethod`.  (The Python function returns the executed
function object; the model keeps the source it was built from.) -/
def getmethod (attr name : String) : Src :=
  match dget templates name with
  | some t => addAttr t attr
  | none => mkmethodSrc attr name

/-- Attributes that `hasattr` finds on a freshly created class before any
composition, because the class inherits them from `object` (and, being a
class, from `type`).  This models the CPython attribute surface at the names
this development queries; field-name slot descriptors and module metadata
are irrelevant to the claims and omitted. -/
def objectAttrs : List String :=
  ["__new__", "__init__", "__init_subclass__", "__subclasshook__",
   "__class__", "__eq__", "__ne__", "__lt__", "__le__", "__gt__", "__ge__",
   "__hash__", "__repr__", "__str__", "__format__", "__sizeof__", "__dir__",
   "__reduce__", "__reduce_ex__", "__getattribute__", "__setattr__",
   "__delattr__", "__doc__", "__module__", "__dict__",
   "__call__", "__name__", "__qualname__", "__bases__", "__base__",
   "__mro__", "mro", "__subclasses__", "__instancecheck__",
   "__subclasscheck__", "__itemsize__", "__basicsize__", "__flags__"]

/-- An argument of a `Provider`, as consumed by `_unpack`: either a string
(a category shorthand or an explicit operation name), or an existing class,
recorded by its abstract-method names and its `__dict__` entries tagged with
whether they are callable. -/
inductive PArg where
  | str (s : String)
  | cls (abstracts : List String) (members : List (String × Bool))
deriving DecidableEq, Repr

/-- `_decifer_callables`: the abstract-method names, then the callable
`__dict__` members that are not in `NO_INHERIT`. -/
def deciferCallables (abstracts : List String) (members : List (String × Bool)) : List String :=
  abstracts ++ (members.filter (fun kv => kv.2 && !(NO_INHERIT.contains kv.1))).map (·.1)

/-- `_unpack`: a class argument enumerates its callables; a string argument
expands through the `interfaces` catalog when it is a category, and otherwise
stands for itself as an explicit operation name. -/
def unpack : PArg → List String
  | .str s =>
    match dget interfaces s with
    | some ns => ns
    | none => [s]
  | .cls ab ms => deciferCallables ab ms

/-- A `Provider` value: the delegation request payload.  `empty` (the
no-default sentinel defined in the package initializer) is modelled by
`Option.none`. -/
structure Prov (V : Type) where
  pargs : List PArg
  default : Option V
deriving DecidableEq, Repr

/-- A member of a class namespace.  Generated members record their
provenance: `generated attr op` is the method rendered by
`getmethod attr op` (source available through that function), `initM` the
constructor synthesized from `STRUCT_TEMPLATE`, `reprDefault` the shared
`struct_repr`, `frozenM` the shared `frozen_setattr` guard, and `user i` an
opaque user-supplied callable. -/
inductive Member where
  | user (id : Nat)
  | generated (attr opname : String)
  | initM
  | reprDefault
  | frozenM
deriving DecidableEq, Repr

/-- A class namespace: the class's own `__dict__`, ordered. -/
abbrev Own := List (String × Member)

/-- Python `hasattr(cls, n)` for a newly built record class: its own dict,
or the attributes inherited from `object`/`type`. -/
def hasattrB (own : Own) (n : String) : Bool :=
  (dget own n).isSome || objectAttrs.contains n

/-- One iteration of the inner loop of `compose`: attach the rendered method
unless the class already has the attribute, except that the two `NO_INHERIT`
hooks are always regenerated. -/
def composeStep (own : Own) (attr n : String) : Own :=
  if !hasattrB own n || NO_INHERIT.contains n then
    dset own n (Member.generated attr n)
  else own

/-- The composer loop over the resolved (delegate field, operation name)
pairs, in request order. -/
def composeOps (own : Own) : List (String × String) → Own
  | [] => own
  | (attr, n) :: rest => composeOps (composeStep own attr n) rest

/-- All (delegate field, operation name) pairs a provider list resolves to:
each provider's arguments unpacked in order, tagged with its field name. -/
def resolvedOps {V : Type} (ps : List (String × Prov V)) : List (String × String) :=
  ps.flatMap (fun ap => (ap.2.pargs.flatMap unpack).map (fun n => (ap.1, n)))

/-- `compose` in `structs.py`. -/
def compose {V : Type} (own : Own) (ps : List (String × Prov V)) : Own :=
  composeOps own (resolvedOps ps)

/-- A raw declaration value in a record's class body, as `sort_types`
distinguishes them: the `...` required marker, a `Provider`, a plain callable,
a `classmethod` or `property` wrapper (callables carry an opaque identity),
or a literal default value. -/
inductive DVal (V : Type) where
  | ellipsis
  | provider (p : Prov V)
  | callableV (id : Nat)
  | classmethV (id : Nat)
  | propertyV (id : Nat)
  | lit (v : V)
deriving DecidableEq, Repr

/-- A record declaration: the optional explicit `__slots__` entry, and the
remaining class-dict items in declaration order. -/
structure Dct (V : Type) where
  slotsDecl : Option (List String)
  items : List (String × DVal V)
deriving DecidableEq, Repr

/-- The output buckets of `sort_types`. -/
structure Sorted (V : Type) where
  slots : List String
  args : List String
  kwargs : List (String × V)
  callables : List (String × DVal V)
  providers : List (String × Prov V)
deriving DecidableEq, Repr

/-- `sort_types` in `structs.py`: one pass over the declared items.  Keys in
`DEFAULTS` are skipped; `...` marks a required positional field; a `Provider`
is recorded as a delegation request and doubles as a required field when it
has no default and as a defaulted field otherwise; callables, classmethods
and properties are computed members; any other value is a keyword default
unless the name is already listed in the explicit `__slots__`.  (The Python
loop appends to each bucket, so every bucket keeps declaration order.) -/
def sort_types {V : Type} (slots : List String) : List (String × DVal V) → Sorted V
  | [] => ⟨slots, [], [], [], []⟩
  | (k, v) :: rest =>
    let s := sort_types slots rest
    if DEFAULTS.contains k then s
    else
      match v with
      | .ellipsis => ⟨s.slots, k :: s.args, s.kwargs, s.callables, s.providers⟩
      | .provider p =>
        match p.default with
        | none => ⟨s.slots, k :: s.args, s.kwargs, s.callables, (k, p) :: s.providers⟩
        | some dv => ⟨s.slots, s.args, (k, dv) :: s.kwargs, s.callables, (k, p) :: s.providers⟩
      | .callableV _ => ⟨s.slots, s.args, s.kwargs, (k, v) :: s.callables, s.providers⟩
      | .classmethV _ => ⟨s.slots, s.args, s.kwargs, (k, v) :: s.callables, s.providers⟩
      | .propertyV _ => ⟨s.slots, s.args, s.kwargs, (k, v) :: s.callables, s.providers⟩
      | .lit x =>
        if slots.contains k then s
        else ⟨s.slots, s.args, (k, x) :: s.kwargs, s.callables, s.providers⟩

/-- The synthesized record type: slots, constructor parameters (`none` marks
a required positional parameter, `some v` a keyword parameter with default
`v`), the field names the constructor body assigns in order, whether the body
uses the escaped `object.__setattr__` path, whether it ends with a
`self._init()` call, the frozen flag, and the class namespace after
representation wiring, callable attachment, the frozen guard and
composition. -/
structure StructClass (V : Type) where
  name : String
  slots : List String
  params : List (String × Option V)
  initAssigns : List String
  escaped : Bool
  callsInit : Bool
  frozen : Bool
  own : Own
deriving DecidableEq, Repr

/-- The view of a `DVal` as an attached class member. -/
def memberOf {V : Type} : DVal V → Member
  | .callableV i => .user i
  | .classmethV i => .user i
  | .propertyV i => .user i
  | _ => .user 0

/-- The `setattr(cls, k, v)` loop over the computed members. -/
def attachCallables {V : Type} (own : Own) : List (String × DVal V) → Own
  | [] => own
  | (k, v) :: rest => attachCallables (dset own k (memberOf v)) rest

/-- The body of `struct` in `structs.py` after the inheritance validation:
classify the declaration, build the constructor parameter list (required
fields then keyword fields, as rendered into `STRUCT_TEMPLATE`), extend the
slots with every constructor parameter, pick the assignment path (escaped
when `escape_setattr` or `frozen`), append the `self._init()` call when a
computed member of that name exists, attach the default representation
unless the user supplied one, attach the computed members, install the
frozen write guard, and run the composer. -/
def buildStruct {V : Type} (name : String) (d : Dct V) (escape frozen : Bool) : StructClass V :=
  let s := sort_types (d.slotsDecl.getD []) d.items
  let argNames := s.args ++ s.kwargs.map (·.1)
  let slots := s.slots ++ argNames
  let params := s.args.map (fun a => (a, (none : Option V)))
      ++ s.kwargs.map (fun kv => (kv.1, some kv.2))
  let callsInit := s.callables.any (fun kv => kv.1 = "_init")
  let own0 : Own := [("__init__", Member.initM)]
  let own1 := if d.items.any (fun kv => kv.1 = "__repr__") then own0
      else dset own0 "__repr__" Member.reprDefault
  let own2 := attachCallables own1 s.callables
  let own3 := if frozen then dset own2 "__setattr__" Member.frozenM else own2
  let own4 := compose own3 s.providers
  ⟨name, slots, params, argNames, escape || frozen, callsInit, frozen, own4⟩

/-- The error raised on a declaration with structural inheritance. -/
inductive StructErr where
  | inheritance
deriving DecidableEq, Repr

/-- `struct` in `structs.py`: the declaring class must have no parent other
than `object` (`len(cls.__bases__) > 1 or cls.__base__ != object`); the
`__base__` of a single-base pure-Python class is that base, modelled by the
head of the base list.  Validation happens before any synthesis. -/
def struct {V : Type} (name : String) (bases : List String) (d : Dct V)
    (escape frozen : Bool) : Except StructErr (StructClass V) :=
  if 1 < bases.length || bases.head? ≠ some "object" then .error .inheritance
  else .ok (buildStruct name d escape frozen)

/- Instance-level attribute semantics. -/

/-- Failures of an instance attribute write: the `Frozen` exception from
`frozen_setattr`, or the `AttributeError` CPython raises when writing a
non-slot name on an instance of a `__slots__` class. -/
inductive WErr where
  | frozenE
  | attrErr
deriving DecidableEq, Repr

/-- Result of an instance attribute write: an updated field map, a failure,
a write forwarded to the delegate field by the composed `__setattr__`
template (`setattr(self.attr, attr, value)`), or a call into an opaque
user-supplied write hook. -/
inductive WriteRes (V : Type) where
  | ok (i : List (String × V))
  | err (e : WErr)
  | delegated (fld a : String)
  | userHook (id : Nat)
deriving DecidableEq, Repr

/-- `object.__setattr__` on an instance of a `__slots__` class: the write
succeeds exactly for slot names. -/
def objSetattr {V : Type} (slots : List String) (i : List (String × V))
    (a : String) (v : V) : WriteRes V :=
  if slots.contains a then .ok (dset i a v) else .err .attrErr

/-- An instance attribute write `obj.a = v`: dispatched through the class's
`__setattr__`.  `frozen_setattr` always raises `Frozen`; a generated member
stored under `__setattr__` is the rendered `__setattr__` template, which
writes slot names through `object.__setattr__` and forwards everything else
to the delegate field; a user hook is opaque; with no own entry the write
falls through to `object.__setattr__`. -/
def instSetattr {V : Type} (sc : StructClass V) (i : List (String × V))
    (a : String) (v : V) : WriteRes V :=
  match dget sc.own "__setattr__" with
  | some Member.frozenM => .err .frozenE
  | some (Member.user id) => .userHook id
  | some (Member.generated fld _) =>
    if sc.slots.contains a then .ok (dset i a v) else .delegated fld a
  | some Member.initM => .userHook 0
  | some Member.reprDefault => .userHook 0
  | none => objSetattr sc.slots i a v

/-- Result of running the synthesized constructor: the instance, a write
failure, or an escape into behavior the model keeps opaque. -/
inductive InitRes (V : Type) where
  | ok (i : List (String × V))
  | fail (e : WErr)
  | unknown
deriving DecidableEq, Repr

/-- One constructor-body assignment: `object.__setattr__(self, a, a)` when
the body is escaped (`escape_setattr` or `frozen`), plain `self.a = a`
otherwise. -/
def writeStep {V : Type} (sc : StructClass V) (i : List (String × V))
    (a : String) (v : V) : WriteRes V :=
  if sc.escaped then objSetattr sc.slots i a v else instSetattr sc i a v

/-- The assignment sequence of the constructor body, threading the instance. -/
def runAssigns {V : Type} (sc : StructClass V) (argv : String → V) :
    List String → List (String × V) → InitRes V
  | [], i => .ok i
  | a :: rest, i =>
    match writeStep sc i a (argv a) with
    | .ok i2 => runAssigns sc argv rest i2
    | .err e => .fail e
    | .delegated _ _ => .unknown
    | .userHook _ => .unknown

/-- Running the synthesized constructor on argument values `argv`: assign
every constructor parameter to its same-named field in order, then call the
user's `_init` hook (modelled by `hook`, an arbitrary transformation of the
instance) when the declaration has one. -/
def runInit {V : Type} (sc : StructClass V)
    (hook : List (String × V) → List (String × V)) (argv : String → V) : InitRes V :=
  match runAssigns sc argv sc.initAssigns [] with
  | .ok i => .ok (if sc.callsInit then hook i else i)
  | r => r

/-- The field/value pairs the default representation (`struct_repr`) prints:
each constructor parameter name with its current value, in signature order. -/
def reprPairs {V : Type} (sc : StructClass V) (dflt : V)
    (i : List (String × V)) : List (String × V) :=
  sc.params.map (fun p => (p.1, (dget i p.1).getD dflt))

/- Specification-side restatements of the field classification (§4.1/§4.3 of
the design document), used to compare the classifier's output against the
declaration-order filter the specification describes. -/

/-- A declared value the specification classifies as RequiredPositional: the
required-field marker, or a delegation request without a default. -/
def isRequiredVal {V : Type} : DVal V → Bool
  | .ellipsis => true
  | .provider p => p.default.isNone
  | _ => false

/-- A declared value the specification classifies as Computed: a callable, a
classmethod or a property wrapper. -/
def isComputedVal {V : Type} : DVal V → Bool
  | .callableV _ => true
  | .classmethV _ => true
  | .propertyV _ => true
  | _ => false

/-- The RequiredPositional field names, in declaration order. -/
def requiredNames {V : Type} (items : List (String × DVal V)) : List String :=
  (items.filter (fun kv => !DEFAULTS.contains kv.1 && isRequiredVal kv.2)).map (·.1)

/-- The DefaultedKeyword fields with their defaults, in declaration order: a
delegation request with a default, or a literal value whose name is not a
pre-existing layout-only `__slots__` marker. -/
def defaultedPairs {V : Type} (slots : List String)
    (items : List (String × DVal V)) : List (String × V) :=
  items.filterMap (fun kv =>
    if DEFAULTS.contains kv.1 then none
    else
      match kv.2 with
      | .provider p => p.default.map (fun dv => (kv.1, dv))
      | .lit x => if slots.contains kv.1 then none else some (kv.1, x)
      | _ => none)

/-- The Computed items, in declaration order. -/
def computedItems {V : Type} (items : List (String × DVal V)) : List (String × DVal V) :=
  items.filter (fun kv => !DEFAULTS.contains kv.1 && isComputedVal kv.2)

/-- The delegation requests the builder feeds to the composer, as a function
of the declaration. -/
def declaredProviders {V : Type} (d : Dct V) : List (String × Prov V) :=
  (sort_types (d.slotsDecl.getD []) d.items).providers

/-- Modelled from the spec: the current record builder of this package lives
in the package initializer (`compose/__init__.py`), which is not among the
provided sources; `structs.py` holds an earlier iteration whose classifier
reads only assigned names and skips the annotations entry entirely, while the
repository's own test module declares annotation-only fields (for example the
`head` field of its linked-list record).  Per §4.1 rule 5 of the design
document, a field present only as a type annotation (no assigned value) is
RequiredPositional, and annotation-only fields are reordered to precede all
other required fields, preserving annotation declaration order.  `ann` is
the ordered list of annotated names. -/
def sortTypesAnn {V : Type} (slots : List String) (ann : List String)
    (items : List (String × DVal V)) : Sorted V :=
  let base := sort_types slots items
  let annOnly := ann.filter (fun a => !(items.any (fun kv => kv.1 = a)))
  ⟨base.slots, annOnly ++ base.args, base.kwargs, base.callables, base.providers⟩

/- Concrete declarations used to evaluate the engine at specific inputs. -/

/-- A record delegating the `==` category to its `inner` field. -/
def c1dct : Dct Nat := ⟨none, [("inner", DVal.provider ⟨[PArg.str "=="], none⟩)]⟩

/-- The record type built from `c1dct`. -/
def c1sc : StructClass Nat := buildStruct "R" c1dct false false

/-- A record delegating the `+` category to its `inner` field. -/
def c1dctP : Dct Nat := ⟨none, [("inner", DVal.provider ⟨[PArg.str "+"], none⟩)]⟩

/-- The record type built from `c1dctP`. -/
def c1scP : StructClass Nat := buildStruct "P" c1dctP false false

/-- A record that defines its own attribute-write method and also requests
the `__setattr__` operation from a delegate. -/
def c2bad : Dct Nat :=
  ⟨none, [("d", DVal.provider ⟨[PArg.str "__setattr__"], none⟩),
          ("__setattr__", DVal.callableV 7)]⟩

/-- The record type built from `c2bad`. -/
def c2bsc : StructClass Nat := buildStruct "C" c2bad false false

/-- A frozen record whose delegation request names the attribute-write hook. -/
def c4bad : Dct Nat :=
  ⟨none, [("x", DVal.ellipsis), ("d", DVal.provider ⟨[PArg.str "__setattr__"], none⟩)]⟩

/-- The frozen record type built from `c4bad`. -/
def c4bsc : StructClass Nat := buildStruct "F" c4bad false true

/-- A mutable record whose delegation request names the attribute-write hook. -/
def c8bad : Dct Nat :=
  ⟨none, [("x", DVal.ellipsis), ("d", DVal.provider ⟨[PArg.str "__setattr__"], none⟩)]⟩

/-- The record type built from `c8bad`. -/
def c8bsc : StructClass Nat := buildStruct "G" c8bad false false

/-- A record with a post-initialization hook. -/
def c9bad : Dct Nat := ⟨none, [("a", DVal.ellipsis), ("_init", DVal.callableV 0)]⟩

/-- The record type built from `c9bad`. -/
def c9bsc : StructClass Nat := buildStruct "M" c9bad false false

/-- A possible behavior of the opaque `_init` member of `c9bad`: increment
field `a`. -/
def c9hook : List (String × Nat) → List (String × Nat) :=
  fun i => dset i "a" ((dget i "a").getD 0 + 1)

/-- A valid declaration exercising every constructor-relevant bucket:
a required field, a defaulted field, a method, a post-init hook, a defaulted
delegation request, and a layout-only slot name. -/
def c3w : Dct Nat :=
  ⟨some ["pre"],
   [("a", DVal.ellipsis), ("b", DVal.lit 5), ("m", DVal.callableV 1),
    ("_init", DVal.callableV 2), ("p", DVal.provider ⟨[PArg.str "+"], some 9⟩)]⟩

/-- A frozen declaration with a required and a defaulted field. -/
def c4w : Dct Nat := ⟨none, [("x", DVal.ellipsis), ("y", DVal.lit 5)]⟩

/-- A plain declaration with an explicit layout entry and a required field. -/
def c8w : Dct Nat := ⟨some ["pre"], [("x", DVal.ellipsis)]⟩

/-- A plain two-field declaration. -/
def c9w : Dct Nat := ⟨none, [("a", DVal.ellipsis), ("b", DVal.lit 3)]⟩

/- Dictionary and composer lemmas. -/

theorem dget_dset_self {α : Type _} (l : List (String × α)) (k : String) (v : α) :
    dget (dset l k v) k = some v := by
  induction l with
  | nil => simp [dget, dset]
  | cons kv t ih =>
    obtain ⟨k1, v1⟩ := kv
    by_cases h : k1 = k <;> simp [dget, dset, h, ih]

theorem dget_dset_ne {α : Type _} (l : List (String × α)) (k n : String) (v : α)
    (h : n ≠ k) : dget (dset l k v) n = dget l n := by
  induction l with
  | nil => simp [dget, dset, Ne.symm h]
  | cons kv t ih =>
    obtain ⟨k1, v1⟩ := kv
    by_cases h1 : k1 = k
    · subst h1
      simp [dget, dset, Ne.symm h]
    · by_cases h2 : k1 = n <;> simp [dget, dset, h1, h2, h, ih]

theorem hasattrB_of_dget (own : Own) (n : String) (m : Member)
    (h : dget own n = some m) : hasattrB own n = true := by
  simp [hasattrB, h]

theorem dget_composeOps_kept (ops : List (String × String)) :
    ∀ (own : Own) (n : String) (m : Member), dget own n = some m →
      NO_INHERIT.contains n = false → dget (composeOps own ops) n = some m := by
  induction ops with
  | nil => intro own n m h _; exact h
  | cons p rest ih =>
    intro own n m h hni
    obtain ⟨attr, n2⟩ := p
    have hstep : dget (composeStep own attr n2) n = some m := by
      unfold composeStep
      by_cases he : n2 = n
      · subst he
        rw [hasattrB_of_dget own n2 m h, hni]
        simpa using h
      · by_cases hc : (!hasattrB own n2 || NO_INHERIT.contains n2) = true
        · rw [if_pos hc]
          rw [dget_dset_ne _ _ _ _ (Ne.symm he)]
          exact h
        · rw [if_neg hc]; exact h
    exact ih (composeStep own attr n2) n m hstep hni

theorem dget_composeOps_untouched (ops : List (String × String)) :
    ∀ (own : Own) (n : String), (∀ p ∈ ops, p.2 ≠ n) →
      dget (composeOps own ops) n = dget own n := by
  induction ops with
  | nil => intro own n _; rfl
  | cons p rest ih =>
    intro own n hn
    obtain ⟨attr, n2⟩ := p
    have hne : n2 ≠ n := hn (attr, n2) (List.mem_cons_self _ _)
    have hstep : dget (composeStep own attr n2) n = dget own n := by
      unfold composeStep
      by_cases hc : (!hasattrB own n2 || NO_INHERIT.contains n2) = true
      · rw [if_pos hc]
        exact dget_dset_ne _ _ _ _ (Ne.symm hne)
      · rw [if_neg hc]
    calc dget (composeOps own ((attr, n2) :: rest)) n
        = dget (composeOps (composeStep own attr n2) rest) n := rfl
      _ = dget (composeStep own attr n2) n :=
          ih (composeStep own attr n2) n (fun p hp => hn p (List.mem_cons_of_mem _ hp))
      _ = dget own n := hstep

theorem dget_attachCallables_untouched {V : Type} (cs : List (String × DVal V)) :
    ∀ (own : Own) (n : String), (∀ kv ∈ cs, kv.1 ≠ n) →
      dget (attachCallables own cs) n = dget own n := by
  induction cs with
  | nil => intro own n _; rfl
  | cons kv rest ih =>
    intro own n hn
    obtain ⟨k, v⟩ := kv
    have hne : k ≠ n := hn (k, v) (List.mem_cons_self _ _)
    rw [attachCallables,
      ih (dset own k (memberOf v)) n (fun p hp => hn p (List.mem_cons_of_mem _ hp)),
      dget_dset_ne _ _ _ _ (Ne.symm hne)]

/- Classifier bucket lemmas: the single `sort_types` pass computes exactly
the declaration-order filters of the specification. -/

theorem sort_types_slots {V : Type} (sl : List String)
    (items : List (String × DVal V)) : (sort_types sl items).slots = sl := by
  induction items with
  | nil => rfl
  | cons kv rest ih =>
    obtain ⟨k, v⟩ := kv
    by_cases hd : k ∈ DEFAULTS
    · simp [sort_types, hd, ih]
    · cases v with
      | provider p => cases hp : p.default <;> simp [sort_types, hd, hp, ih]
      | lit x => by_cases hs : k ∈ sl <;> simp [sort_types, hd, hs, ih]
      | _ => simp [sort_types, hd, ih]

theorem sort_types_args {V : Type} (sl : List String)
    (items : List (String × DVal V)) :
    (sort_types sl items).args = requiredNames items := by
  induction items with
  | nil => rfl
  | cons kv rest ih =>
    obtain ⟨k, v⟩ := kv
    by_cases hd : k ∈ DEFAULTS
    · simp [sort_types, requiredNames, hd, ih, List.filter_cons]
    · cases v with
      | provider p =>
        cases hp : p.default <;>
          simp [sort_types, requiredNames, isRequiredVal, hd, hp, ih,
            List.filter_cons, Option.isNone]
      | lit x =>
        by_cases hs : k ∈ sl <;>
          simp [sort_types, requiredNames, isRequiredVal, hd, hs, ih, List.filter_cons]
      | _ =>
        simp [sort_types, requiredNames, isRequiredVal, hd, ih, List.filter_cons]

theorem sort_types_kwargs {V : Type} (sl : List String)
    (items : List (String × DVal V)) :
    (sort_types sl items).kwargs = defaultedPairs sl items := by
  induction items with
  | nil => rfl
  | cons kv rest ih =>
    obtain ⟨k, v⟩ := kv
    by_cases hd : k ∈ DEFAULTS
    · simp [sort_types, defaultedPairs, hd, ih, List.filterMap_cons]
    · cases v with
      | provider p =>
        cases hp : p.default <;>
          simp [sort_types, defaultedPairs, hd, hp, ih, List.filterMap_cons]
      | lit x =>
        by_cases hs : k ∈ sl <;>
          simp [sort_types, defaultedPairs, hd, hs, ih, List.filterMap_cons]
      | _ => simp [sort_types, defaultedPairs, hd, ih, List.filterMap_cons]

theorem sort_types_callables {V : Type} (sl : List String)
    (items : List (String × DVal V)) :
    (sort_types sl items).callables = computedItems items := by
  induction items with
  | nil => rfl
  | cons kv rest ih =>
    obtain ⟨k, v⟩ := kv
    by_cases hd : k ∈ DEFAULTS
    · simp [sort_types, computedItems, hd, ih, List.filter_cons]
    · cases v with
      | provider p =>
        cases hp : p.default <;>
          simp [sort_types, computedItems, isComputedVal, hd, hp, ih, List.filter_cons]
      | lit x =>
        by_cases hs : k ∈ sl <;>
          simp [sort_types, computedItems, isComputedVal, hd, hs, ih, List.filter_cons]
      | _ =>
        simp [sort_types, computedItems, isComputedVal, hd, ih, List.filter_cons]

theorem computedItems_name_mem {V : Type} (items : List (String × DVal V))
    (kv : String × DVal V) (h : kv ∈ computedItems items) : kv.1 ∈ items.map (·.1) := by
  unfold computedItems at h
  exact List.mem_map_of_mem _ (List.mem_of_mem_filter h)

/- Record-builder component lemmas. -/

theorem buildStruct_params {V : Type} (name : String) (d : Dct V) (escape frozen : Bool) :
    (buildStruct name d escape frozen).params =
      (requiredNames d.items).map (fun a => (a, (none : Option V)))
        ++ (defaultedPairs (d.slotsDecl.getD []) d.items).map (fun kv => (kv.1, some kv.2)) := by
  simp [buildStruct, sort_types_args, sort_types_kwargs]

theorem buildStruct_initAssigns {V : Type} (name : String) (d : Dct V)
    (escape frozen : Bool) :
    (buildStruct name d escape frozen).initAssigns =
      requiredNames d.items ++ (defaultedPairs (d.slotsDecl.getD []) d.items).map (·.1) := by
  simp [buildStruct, sort_types_args, sort_types_kwargs]

theorem buildStruct_param_names {V : Type} (name : String) (d : Dct V)
    (escape frozen : Bool) :
    (buildStruct name d escape frozen).params.map (·.1) =
      (buildStruct name d escape frozen).initAssigns := by
  rw [buildStruct_params, buildStruct_initAssigns]
  rw [List.map_append, List.map_map, List.map_map]
  have h1 : ((fun x : String × Option V => x.1) ∘ fun a : String => (a, (none : Option V)))
      = id := rfl
  have h2 : ((fun x : String × Option V => x.1) ∘ fun kv : String × V => (kv.1, some kv.2))
      = fun kv : String × V => kv.1 := rfl
  rw [h1, h2, List.map_id]

theorem buildStruct_slots {V : Type} (name : String) (d : Dct V) (escape frozen : Bool) :
    (buildStruct name d escape frozen).slots =
      d.slotsDecl.getD [] ++ (buildStruct name d escape frozen).initAssigns := by
  simp [buildStruct, sort_types_slots]

theorem buildStruct_escaped {V : Type} (name : String) (d : Dct V) (escape frozen : Bool) :
    (buildStruct name d escape frozen).escaped = (escape || frozen) := rfl

theorem buildStruct_frozen {V : Type} (name : String) (d : Dct V) (escape frozen : Bool) :
    (buildStruct name d escape frozen).frozen = frozen := rfl

theorem buildStruct_callsInit {V : Type} (name : String) (d : Dct V)
    (escape frozen : Bool) :
    (buildStruct name d escape frozen).callsInit
      = (computedItems d.items).any (fun kv => kv.1 = "_init") := by
  simp [buildStruct, sort_types_callables]

/-- If a computed member named `n` does not appear among the declared items,
the attach loop leaves the `n` entry of the namespace unchanged. -/
theorem attach_skips_absent {V : Type} (d : Dct V) (own : Own) (n : String)
    (h : n ∉ d.items.map (·.1)) :
    dget (attachCallables own (sort_types (d.slotsDecl.getD []) d.items).callables) n
      = dget own n := by
  apply dget_attachCallables_untouched
  intro kv hkv he
  rw [sort_types_callables] at hkv
  exact h (he ▸ computedItems_name_mem d.items kv hkv)

/-- With no user-declared `__setattr__`, no frozen mode, and no delegation
request resolving to `__setattr__`, the built class has no own `__setattr__`
entry, so instance writes use the default `object.__setattr__` path. -/
theorem buildStruct_own_setattr_none {V : Type} (name : String) (d : Dct V) (escape : Bool)
    (h1 : "__setattr__" ∉ d.items.map (·.1))
    (hres : ∀ p ∈ resolvedOps (declaredProviders d), p.2 ≠ "__setattr__") :
    dget (buildStruct name d escape false).own "__setattr__" = none := by
  unfold declaredProviders at hres
  show dget (composeOps _ _) "__setattr__" = none
  rw [dget_composeOps_untouched _ _ _ hres]
  show dget (attachCallables _ _) "__setattr__" = none
  rw [attach_skips_absent d _ _ h1]
  by_cases hr : d.items.any (fun kv => kv.1 = "__repr__") <;> simp [hr, dget, dset]

/-- In frozen mode, provided no delegation request resolves to `__setattr__`,
the built class's own `__setattr__` is the `frozen_setattr` guard. -/
theorem buildStruct_own_setattr_frozen {V : Type} (name : String) (d : Dct V) (escape : Bool)
    (hres : ∀ p ∈ resolvedOps (declaredProviders d), p.2 ≠ "__setattr__") :
    dget (buildStruct name d escape true).own "__setattr__" = some Member.frozenM := by
  unfold declaredProviders at hres
  show dget (composeOps _ _) "__setattr__" = some Member.frozenM
  rw [dget_composeOps_untouched _ _ _ hres]
  exact dget_dset_self _ _ _

/-- With no user-declared `__repr__`, the built class carries the default
representation method, and composition never displaces it. -/
theorem buildStruct_own_repr {V : Type} (name : String) (d : Dct V) (escape frozen : Bool)
    (h : "__repr__" ∉ d.items.map (·.1)) :
    dget (buildStruct name d escape frozen).own "__repr__" = some Member.reprDefault := by
  show dget (composeOps _ _) "__repr__" = some Member.reprDefault
  have hany : d.items.any (fun kv => kv.1 = "__repr__") = false := by
    rw [List.any_eq_false]
    intro kv hkv
    simp only [decide_eq_true_eq]
    intro he
    exact h (he ▸ List.mem_map_of_mem _ hkv)
  apply dget_composeOps_kept _ _ _ _ _ (by decide)
  have h2 : dget (attachCallables
      (if d.items.any (fun kv => kv.1 = "__repr__") then [("__init__", Member.initM)]
        else dset [("__init__", Member.initM)] "__repr__" Member.reprDefault)
      (sort_types (d.slotsDecl.getD []) d.items).callables) "__repr__"
      = some Member.reprDefault := by
    rw [attach_skips_absent d _ _ h, hany]
    simp [dget_dset_self]
  cases frozen with
  | false => exact h2
  | true =>
    show dget (dset _ "__setattr__" Member.frozenM) "__repr__" = some Member.reprDefault
    rw [dget_dset_ne _ _ _ _ (by decide)]
    exact h2

/- Constructor-run lemmas. -/

theorem instSetattr_default {V : Type} (sc : StructClass V)
    (h : dget sc.own "__setattr__" = none) (i : List (String × V)) (a : String) (v : V) :
    instSetattr sc i a v = objSetattr sc.slots i a v := by
  unfold instSetattr
  rw [h]

theorem writeStep_obj {V : Type} (sc : StructClass V)
    (h : dget sc.own "__setattr__" = none ∨ sc.escaped = true)
    (i : List (String × V)) (a : String) (v : V) :
    writeStep sc i a v = objSetattr sc.slots i a v := by
  unfold writeStep
  cases he : sc.escaped with
  | true => simp
  | false =>
    rcases h with h | h
    · simp [instSetattr_default sc h]
    · rw [he] at h; cases h

theorem runAssigns_obj {V : Type} (sc : StructClass V) (argv : String → V)
    (hW : ∀ i a v, writeStep sc i a v = objSetattr sc.slots i a v) :
    ∀ (names : List String) (i0 : List (String × V)),
      (∀ a ∈ names, sc.slots.contains a = true) →
      runAssigns sc argv names i0
        = .ok (names.foldl (fun i a => dset i a (argv a)) i0) := by
  intro names
  induction names with
  | nil => intro i0 _; rfl
  | cons a rest ih =>
    intro i0 hsl
    rw [runAssigns, hW]
    unfold objSetattr
    rw [if_pos (hsl a (List.mem_cons_self _ _))]
    show runAssigns sc argv rest (dset i0 a (argv a))
        = InitRes.ok (List.foldl (fun i a => dset i a (argv a)) i0 (a :: rest))
    rw [List.foldl_cons]
    exact ih _ (fun b hb => hsl b (List.mem_cons_of_mem _ hb))

theorem dget_foldl_not_mem {V : Type} (argv : String → V) :
    ∀ (names : List String) (i0 : List (String × V)) (p : String), p ∉ names →
      dget (names.foldl (fun i a => dset i a (argv a)) i0) p = dget i0 p := by
  intro names
  induction names with
  | nil => intro i0 p _; rfl
  | cons a rest ih =>
    intro i0 p hp
    rw [List.foldl_cons, ih _ _ (fun h => hp (List.mem_cons_of_mem _ h)),
      dget_dset_ne _ _ _ _ (fun h => hp (by rw [h]; exact List.mem_cons_self _ _))]

theorem dget_foldl_mem {V : Type} (argv : String → V) :
    ∀ (names : List String) (i0 : List (String × V)) (p : String), p ∈ names →
      dget (names.foldl (fun i a => dset i a (argv a)) i0) p = some (argv p) := by
  intro names
  induction names with
  | nil => intro i0 p hp; cases hp
  | cons a rest ih =>
    intro i0 p hp
    by_cases hr : p ∈ rest
    · rw [List.foldl_cons, ih _ _ hr]
    · have hpa : p = a := by
        cases List.mem_cons.mp hp with
        | inl h => exact h
        | inr h => exact absurd h hr
      subst hpa
      rw [List.foldl_cons, dget_foldl_not_mem argv rest _ _ hr, dget_dset_self]

theorem dget_map_self {V : Type} (f : String → V) :
    ∀ (l : List String) (p : String), p ∈ l →
      dget (l.map (fun q => (q, f q))) p = some (f p) := by
  intro l
  induction l with
  | nil => intro p hp; cases hp
  | cons a rest ih =>
    intro p hp
    by_cases hpa : a = p
    · simp [dget, List.map_cons, hpa]
    · have hr : p ∈ rest := by
        cases List.mem_cons.mp hp with
        | inl h => exact absurd h.symm hpa
        | inr h => exact h
      simp [dget, List.map_cons, hpa, ih p hr]

theorem contains_of_mem {a : String} {l : List String} (h : a ∈ l) :
    l.contains a = true := by
  simpa using h

theorem dget_none_not_mem {α : Type _} (l : List (String × α)) (n : String)
    (h : dget l n = none) : ∀ v, (n, v) ∉ l := by
  induction l with
  | nil => intro v hv; cases hv
  | cons kv t ih =>
    intro v hv
    obtain ⟨k1, v1⟩ := kv
    by_cases hk : k1 = n
    · unfold dget at h
      rw [if_pos hk] at h
      cases h
    · unfold dget at h
      rw [if_neg hk] at h
      cases List.mem_cons.mp hv with
      | inl he =>
        rw [Prod.mk.injEq] at he
        exact hk he.1.symm
      | inr hm => exact ih h v hm

theorem exists_of_mem_requiredNames {V : Type} (items : List (String × DVal V))
    (a : String) (h : a ∈ requiredNames items) :
    ∃ kv ∈ items, kv.1 = a ∧ isRequiredVal kv.2 = true := by
  unfold requiredNames at h
  rcases List.mem_map.mp h with ⟨kv, hkv, he⟩
  rcases List.mem_filter.mp hkv with ⟨hmem, hpred⟩
  rw [Bool.and_eq_true] at hpred
  exact ⟨kv, hmem, he, hpred.2⟩

theorem exists_of_mem_defaulted {V : Type} (sl : List String)
    (items : List (String × DVal V)) (kv' : String × V)
    (h : kv' ∈ defaultedPairs sl items) :
    ∃ kv ∈ items, kv.1 = kv'.1 ∧ isRequiredVal kv.2 = false
      ∧ isComputedVal kv.2 = false := by
  unfold defaultedPairs at h
  rcases List.mem_filterMap.mp h with ⟨kv, hmem, hf⟩
  obtain ⟨k, v⟩ := kv
  dsimp only at hf
  refine ⟨(k, v), hmem, ?_⟩
  dsimp only
  by_cases hd : DEFAULTS.contains k = true
  · rw [if_pos hd] at hf; cases hf
  · rw [if_neg hd] at hf
    cases v with
    | provider p =>
      dsimp only at hf
      cases hp : p.default with
      | none => rw [hp] at hf; simp at hf
      | some dv =>
        rw [hp] at hf
        simp only [Option.map_some'] at hf
        have he : (k, dv) = kv' := Option.some.inj hf
        refine ⟨congrArg Prod.fst he, ?_, rfl⟩
        simp [isRequiredVal, hp]
    | lit x =>
      dsimp only at hf
      by_cases hs : sl.contains k = true
      · rw [if_pos hs] at hf; cases hf
      · rw [if_neg hs] at hf
        have he : (k, x) = kv' := Option.some.inj hf
        exact ⟨congrArg Prod.fst he, rfl, rfl⟩
    | ellipsis => dsimp only at hf; cases hf
    | callableV i => dsimp only at hf; cases hf
    | classmethV i => dsimp only at hf; cases hf
    | propertyV i => dsimp only at hf; cases hf

/- The ten verification results. -/

/-- C1 (code_bug evidence): the `interfaces` catalog maps the `==` category
to `__eq__`, but a freshly built class already inherits `__eq__` from
`object`, so `compose`'s `hasattr` guard skips it and a record delegating
`==` to its `inner` field gets no equality method at all; for the `+`
category both `__add__` and `__radd__` are attached, and the rendered
reverse method is exactly `def __radd__(self, other): return other +
self.inner`, while the forward one is `def __add__(self, other): return
self.inner + other`. -/
theorem c1_eq_category_dead_plus_reversed :
    dget interfaces "==" = some ["__eq__"]
    ∧ objectAttrs.contains "__eq__" = true
    ∧ dget c1sc.own "__eq__" = none
    ∧ dget c1scP.own "__add__" = some (Member.generated "inner" "__add__")
    ∧ dget c1scP.own "__radd__" = some (Member.generated "inner" "__radd__")
    ∧ getmethod "inner" "__add__"
        = ("def __add__(self, other): return self.inner + other\n").data
    ∧ getmethod "inner" "__radd__"
        = ("def __radd__(self, other): return other + self.inner\n").data := by
  decide

/-- C2 (amended): the composer never overwrites an existing class member
whose name is not one of the two `NO_INHERIT` hooks; in particular a record
declaring its own `__iter__` and requesting `for`-category delegation keeps
its `__iter__`. -/
theorem c2_composer_preserves_members (V : Type) (own : Own)
    (ps : List (String × Prov V)) (n : String) (m : Member)
    (hm : dget own n = some m) (hni : NO_INHERIT.contains n = false) :
    dget (compose own ps) n = some m :=
  dget_composeOps_kept (resolvedOps ps) own n m hm hni

/-- C2 witness: a class with a user `__iter__` composed with a
`for`-category delegation request keeps the user member. -/
theorem c2_composer_preserves_members_witness :
    dget (compose [("__iter__", Member.user 3)]
        [("head", (⟨[PArg.str "for"], none⟩ : Prov Nat))]) "__iter__"
      = some (Member.user 3) :=
  c2_composer_preserves_members Nat [("__iter__", Member.user 3)]
    [("head", ⟨[PArg.str "for"], none⟩)] "__iter__" (Member.user 3)
    (by decide) (by decide)

/-- C2 counterexample: a record that defines its own `__setattr__` and also
requests the `__setattr__` operation from a delegate has the user member
overwritten by the composed one, because `__setattr__` is in `NO_INHERIT`. -/
theorem c2_counterexample :
    dget c2bsc.own "__setattr__" = some (Member.generated "d" "__setattr__")
    ∧ dget c2bsc.own "__setattr__" ≠ some (Member.user 7) := by
  decide

/-- C3: for a declaration with distinct field names, the synthesized
constructor's parameters are exactly the RequiredPositional fields in
declaration order (no default) followed by the DefaultedKeyword fields in
declaration order (each carrying its default); computed fields never appear
among the parameters; and the constructor body ends with a `self._init()`
call exactly when a computed member named `_init` exists.  (`structs.py` has
no variadic-capture markers, so the variadic slots of the claim are absent
from every declaration.) -/
theorem c3_ctor_params (V : Type) (name : String) (d : Dct V) (escape frozen : Bool)
    (hnd : (d.items.map (·.1)).Nodup) :
    (buildStruct name d escape frozen).params
        = (requiredNames d.items).map (fun a => (a, (none : Option V)))
          ++ (defaultedPairs (d.slotsDecl.getD []) d.items).map
              (fun kv => (kv.1, some kv.2))
    ∧ (∀ kv ∈ d.items, isComputedVal kv.2 = true →
        kv.1 ∉ (buildStruct name d escape frozen).params.map (·.1))
    ∧ ((buildStruct name d escape frozen).callsInit = true
        ↔ ∃ kv ∈ d.items, kv.1 = "_init" ∧ isComputedVal kv.2 = true) := by
  refine ⟨buildStruct_params name d escape frozen, ?_, ?_⟩
  · intro kv hkv hcomp hmem
    rw [buildStruct_param_names, buildStruct_initAssigns] at hmem
    cases List.mem_append.mp hmem with
    | inl hreq =>
      rcases exists_of_mem_requiredNames d.items kv.1 hreq with ⟨kv', hkv', he, hr⟩
      have hkk : kv' = kv := List.inj_on_of_nodup_map hnd hkv' hkv he
      rw [hkk] at hr
      obtain ⟨k, v⟩ := kv
      cases v <;> simp [isComputedVal] at hcomp <;> simp [isRequiredVal] at hr
    | inr hdef =>
      rcases List.mem_map.mp hdef with ⟨kvp, hkvp, hep⟩
      rcases exists_of_mem_defaulted _ d.items kvp hkvp with ⟨kv', hkv', he, _, hcompF⟩
      have hkk : kv' = kv := List.inj_on_of_nodup_map hnd hkv' hkv (by rw [he, hep])
      rw [hkk] at hcompF
      rw [hcomp] at hcompF
      cases hcompF
  · rw [buildStruct_callsInit, List.any_eq_true]
    constructor
    · rintro ⟨kv, hkv, he⟩
      rw [decide_eq_true_eq] at he
      rcases List.mem_filter.mp hkv with ⟨hmem, hpred⟩
      rw [Bool.and_eq_true] at hpred
      exact ⟨kv, hmem, he, hpred.2⟩
    · rintro ⟨kv, hmem, he, hcomp⟩
      refine ⟨kv, List.mem_filter.mpr ⟨hmem, ?_⟩, by rw [decide_eq_true_eq]; exact he⟩
      rw [Bool.and_eq_true, he, hcomp]
      exact ⟨by decide, rfl⟩

/-- C3 witness: a declaration with a required field, a literal default, two
computed members (one named `_init`), a defaulted delegation request and a
layout-only slot name. -/
theorem c3_ctor_params_witness :
    (buildStruct "S" c3w false false).params
        = (requiredNames c3w.items).map (fun a => (a, (none : Option Nat)))
          ++ (defaultedPairs (c3w.slotsDecl.getD []) c3w.items).map
              (fun kv => (kv.1, some kv.2))
    ∧ (∀ kv ∈ c3w.items, isComputedVal kv.2 = true →
        kv.1 ∉ (buildStruct "S" c3w false false).params.map (·.1))
    ∧ ((buildStruct "S" c3w false false).callsInit = true
        ↔ ∃ kv ∈ c3w.items, kv.1 = "_init" ∧ isComputedVal kv.2 = true) :=
  c3_ctor_params Nat "S" c3w false false (by decide)

/-- C4 (amended): for a frozen record none of whose delegation requests
resolves to the attribute-write hook, every instance attribute write raises
the `Frozen` condition, for every attribute name, while the constructor
still succeeds for any argument values because frozen implies the escaped
`object.__setattr__` path and every assigned field is a slot. -/
theorem c4_frozen_guard (V : Type) (name : String) (d : Dct V) (escape : Bool)
    (hres : ∀ p ∈ resolvedOps (declaredProviders d), p.2 ≠ "__setattr__") :
    (∀ (i : List (String × V)) (a : String) (v : V),
        instSetattr (buildStruct name d escape true) i a v = .err .frozenE)
    ∧ (∀ (hook : List (String × V) → List (String × V)) (argv : String → V),
        ∃ i, runInit (buildStruct name d escape true) hook argv = .ok i) := by
  have hfz := buildStruct_own_setattr_frozen name d escape hres
  constructor
  · intro i a v
    unfold instSetattr
    rw [hfz]
  · intro hook argv
    have hesc : (buildStruct name d escape true).escaped = true := by
      rw [buildStruct_escaped]
      exact Bool.or_true escape
    have hW := writeStep_obj (buildStruct name d escape true) (Or.inr hesc)
    have hsl : ∀ a ∈ (buildStruct name d escape true).initAssigns,
        (buildStruct name d escape true).slots.contains a = true := by
      intro a ha
      rw [buildStruct_slots]
      exact contains_of_mem (List.mem_append_right _ ha)
    refine ⟨if (buildStruct name d escape true).callsInit then
        hook ((buildStruct name d escape true).initAssigns.foldl
          (fun i a => dset i a (argv a)) [])
      else (buildStruct name d escape true).initAssigns.foldl
          (fun i a => dset i a (argv a)) [], ?_⟩
    unfold runInit
    rw [runAssigns_obj _ argv hW _ _ hsl]

/-- C4 witness: a frozen record with a required and a defaulted field
rejects an instance write and still constructs. -/
theorem c4_frozen_guard_witness :
    instSetattr (buildStruct "F" c4w false true) [] "x" 7 = WriteRes.err WErr.frozenE
    ∧ ∃ i, runInit (buildStruct "F" c4w false true) id (fun _ => 1) = InitRes.ok i :=
  ⟨(c4_frozen_guard Nat "F" c4w false (by decide)).1 [] "x" 7,
   (c4_frozen_guard Nat "F" c4w false (by decide)).2 id (fun _ => 1)⟩

/-- C4 counterexample: a frozen record whose delegation request names
`__setattr__` explicitly has its frozen guard replaced by the composed
write template (the hook is in `NO_INHERIT`, so the composer overwrites it),
and an attribute write then succeeds instead of raising `Frozen`. -/
theorem c4_counterexample :
    c4bsc.frozen = true
    ∧ instSetattr c4bsc [("x", 0)] "x" 5 = WriteRes.ok [("x", 5)]
    ∧ instSetattr c4bsc [("x", 0)] "x" 5 ≠ WriteRes.err WErr.frozenE := by
  decide

/-- C5 (amended): an operation name with no entry in the template store does
not make rendering fail; `getmethod` falls back to `mkmethod` and produces
the generic forwarding method.  (The code has no TemplateNotFound condition
at all: the `KeyError` of the template lookup is caught.) -/
theorem c5_template_fallback (attr nm : String) (h : dget templates nm = none) :
    (∀ t, (nm, t) ∉ templates) ∧ getmethod attr nm = mkmethodSrc attr nm := by
  constructor
  · exact dget_none_not_mem templates nm h
  · unfold getmethod
    rw [h]

/-- C5 witness: the fallback at the unknown operation name `frobnicate`. -/
theorem c5_template_fallback_witness :
    (∀ t, ("frobnicate", t) ∉ templates)
    ∧ getmethod "inner" "frobnicate" = mkmethodSrc "inner" "frobnicate" :=
  c5_template_fallback "inner" "frobnicate" (by decide)

/-- C5 counterexample: `frobnicate` is absent from both the catalog and the
template store, yet rendering succeeds and yields the generic forwarder
source instead of failing with a TemplateNotFound condition. -/
theorem c5_counterexample :
    dget templates "frobnicate" = none
    ∧ dget interfaces "frobnicate" = none
    ∧ getmethod "inner" "frobnicate"
        = ("def frobnicate(self, *args, **kwargs): return self.inner.frobnicate(*args, **kwargs)").data := by
  decide

/-- C6: the record builder reports an Inheritance violation exactly when the
declaring class has more than one base or its single base is not `object`,
before any synthesis; a declaration whose only base is `object` passes and
produces the built record type. -/
theorem c6_inheritance_validation (V : Type) (name : String) (bases : List String)
    (d : Dct V) (e f : Bool) :
    (struct name bases d e f = Except.error StructErr.inheritance
      ↔ 1 < bases.length ∨ bases.head? ≠ some "object")
    ∧ (bases = ["object"] → struct name bases d e f
        = Except.ok (buildStruct name d e f)) := by
  unfold struct
  split
  next hc =>
    rw [Bool.or_eq_true, decide_eq_true_eq, decide_eq_true_eq] at hc
    constructor
    · exact ⟨fun _ => hc, fun _ => rfl⟩
    · intro hb
      subst hb
      simp at hc
  next hc =>
    rw [Bool.or_eq_true, decide_eq_true_eq, decide_eq_true_eq] at hc
    constructor
    · constructor
      · intro h
        simp at h
      · intro hor
        exact absurd hor hc
    · intro _
      rfl

/-- C6 witness: a two-base declaration fails with the Inheritance violation
and a single-`object`-base declaration passes. -/
theorem c6_inheritance_validation_witness :
    struct "R" ["object", "Base"] (⟨none, []⟩ : Dct Nat) false false
        = Except.error StructErr.inheritance
    ∧ struct "Q" ["object"] (⟨none, []⟩ : Dct Nat) false false
        = Except.ok (buildStruct "Q" ⟨none, []⟩ false false) :=
  ⟨(c6_inheritance_validation Nat "R" ["object", "Base"] ⟨none, []⟩ false false).1.mpr
      (by decide),
   (c6_inheritance_validation Nat "Q" ["object"] ⟨none, []⟩ false false).2 rfl⟩

/-- C7 (spec-modelled): in the annotation-aware classifier, every field
present only as a type annotation is classified RequiredPositional, and the
annotated-only fields precede every other required field, preserving their
declaration order. -/
theorem c7_annotated_required_first (V : Type) (sl ann : List String)
    (items : List (String × DVal V))
    (hOnly : ∀ a ∈ ann, ∀ kv ∈ items, kv.1 ≠ a) :
    (sortTypesAnn sl ann items).args = ann ++ requiredNames items
    ∧ ∀ a ∈ ann, a ∈ (sortTypesAnn sl ann items).args := by
  have hfil : ann.filter (fun a => !(items.any (fun kv => kv.1 = a))) = ann := by
    apply List.filter_eq_self.mpr
    intro a ha
    simp only [Bool.not_eq_true', List.any_eq_false, decide_eq_true_eq]
    exact fun kv hkv => hOnly a ha kv hkv
  constructor
  · show ann.filter (fun a => !(items.any (fun kv => kv.1 = a)))
        ++ (sort_types sl items).args = ann ++ requiredNames items
    rw [hfil, sort_types_args]
  · intro a ha
    show a ∈ ann.filter (fun a => !(items.any (fun kv => kv.1 = a)))
        ++ (sort_types sl items).args
    rw [hfil]
    exact List.mem_append_left _ ha

/-- C7 witness: an annotated-only `head` field precedes the required fields
of a record that also declares a defaulted `tail` field. -/
theorem c7_annotated_required_first_witness :
    (sortTypesAnn [] ["head"] [("tail", DVal.lit (0 : Nat))]).args
        = ["head"] ++ requiredNames [("tail", DVal.lit (0 : Nat))]
    ∧ ∀ a ∈ ["head"],
        a ∈ (sortTypesAnn [] ["head"] [("tail", DVal.lit (0 : Nat))]).args :=
  c7_annotated_required_first Nat [] ["head"] [("tail", DVal.lit 0)] (by decide)

/-- C8 (amended): for a record whose write hook is the default one (no
user-declared `__setattr__`, no delegation request resolving to it, not
frozen), the slot list is exactly the pre-existing explicit layout followed
by the constructor parameter names, a write to any name outside the slots
fails with `AttributeError`, and a write to a slot name succeeds — on every
instance. -/
theorem c8_slots_exact (V : Type) (name : String) (d : Dct V) (escape : Bool)
    (h1 : "__setattr__" ∉ d.items.map (·.1))
    (hres : ∀ p ∈ resolvedOps (declaredProviders d), p.2 ≠ "__setattr__") :
    (buildStruct name d escape false).slots
        = d.slotsDecl.getD [] ++ (buildStruct name d escape false).params.map (·.1)
    ∧ (∀ (i : List (String × V)) (a : String) (v : V),
        (buildStruct name d escape false).slots.contains a = false →
          instSetattr (buildStruct name d escape false) i a v = .err .attrErr)
    ∧ (∀ (i : List (String × V)) (a : String) (v : V),
        (buildStruct name d escape false).slots.contains a = true →
          instSetattr (buildStruct name d escape false) i a v = .ok (dset i a v)) := by
  have hset := buildStruct_own_setattr_none name d escape h1 hres
  refine ⟨?_, ?_, ?_⟩
  · rw [buildStruct_slots, buildStruct_param_names]
  · intro i a v hfa
    rw [instSetattr_default _ hset]
    unfold objSetattr
    rw [hfa]
    rfl
  · intro i a v hta
    rw [instSetattr_default _ hset]
    unfold objSetattr
    rw [hta]
    rfl

/-- C8 witness: a record with an explicit layout entry and one required
field. -/
theorem c8_slots_exact_witness :
    (buildStruct "W" c8w false false).slots
        = c8w.slotsDecl.getD [] ++ (buildStruct "W" c8w false false).params.map (·.1)
    ∧ (∀ (i : List (String × Nat)) (a : String) (v : Nat),
        (buildStruct "W" c8w false false).slots.contains a = false →
          instSetattr (buildStruct "W" c8w false false) i a v = .err .attrErr)
    ∧ (∀ (i : List (String × Nat)) (a : String) (v : Nat),
        (buildStruct "W" c8w false false).slots.contains a = true →
          instSetattr (buildStruct "W" c8w false false) i a v = .ok (dset i a v)) :=
  c8_slots_exact Nat "W" c8w false (by decide) (by decide)

/-- C8 counterexample: on a record whose delegation request names
`__setattr__`, a write to a name outside the fixed attribute set does not
fail — the composed write template forwards it to the delegate field. -/
theorem c8_counterexample :
    c8bsc.slots.contains "zzz" = false
    ∧ instSetattr c8bsc [] "zzz" (5 : Nat) = WriteRes.delegated "d" "zzz"
    ∧ instSetattr c8bsc [] "zzz" (5 : Nat) ≠ WriteRes.err WErr.attrErr := by
  decide

/-- Running the constructor of a record with the default write path and no
post-init hook assigns every constructor parameter in order. -/
theorem runInit_default_path {V : Type} (sc : StructClass V)
    (hset : dget sc.own "__setattr__" = none) (hci : sc.callsInit = false)
    (hsl : ∀ a ∈ sc.initAssigns, sc.slots.contains a = true)
    (hook : List (String × V) → List (String × V)) (argv : String → V) :
    runInit sc hook argv
      = .ok (sc.initAssigns.foldl (fun i a => dset i a (argv a)) []) := by
  unfold runInit
  rw [runAssigns_obj sc argv (writeStep_obj sc (Or.inl hset)) sc.initAssigns [] hsl]
  simp [hci]

/-- C9 (amended): for a record with no user representation method, no
`_init` hook, and the default write path, the built class carries the
default representation member, construction succeeds, and reconstructing a
new instance from the representation's field/value pairs yields an instance
whose field values all equal the original's. -/
theorem c9_repr_roundtrip (V : Type) (dflt : V) (name : String) (d : Dct V)
    (escape : Bool)
    (h1 : "__setattr__" ∉ d.items.map (·.1))
    (h2 : "__repr__" ∉ d.items.map (·.1))
    (h3 : "_init" ∉ d.items.map (·.1))
    (hres : ∀ p ∈ resolvedOps (declaredProviders d), p.2 ≠ "__setattr__") :
    dget (buildStruct name d escape false).own "__repr__" = some Member.reprDefault
    ∧ ∀ (hook : List (String × V) → List (String × V)) (argv : String → V),
        ∃ i1, runInit (buildStruct name d escape false) hook argv = .ok i1
          ∧ ∃ i2, runInit (buildStruct name d escape false) hook
              (fun q => (dget (reprPairs (buildStruct name d escape false) dflt i1) q).getD dflt)
              = .ok i2
            ∧ ∀ p ∈ (buildStruct name d escape false).params.map (·.1),
                dget i2 p = dget i1 p := by
  have hset := buildStruct_own_setattr_none name d escape h1 hres
  have hrepr := buildStruct_own_repr name d escape false h2
  have hci : (buildStruct name d escape false).callsInit = false := by
    rw [buildStruct_callsInit, List.any_eq_false]
    intro kv hkv
    simp only [decide_eq_true_eq]
    intro he
    exact h3 (he ▸ computedItems_name_mem d.items kv hkv)
  have hsl : ∀ a ∈ (buildStruct name d escape false).initAssigns,
      (buildStruct name d escape false).slots.contains a = true := by
    intro a ha
    rw [buildStruct_slots]
    exact contains_of_mem (List.mem_append_right _ ha)
  refine ⟨hrepr, ?_⟩
  intro hook argv
  refine ⟨_, runInit_default_path _ hset hci hsl hook argv, _,
    runInit_default_path _ hset hci hsl hook _, ?_⟩
  intro p hp
  rw [buildStruct_param_names] at hp
  rw [dget_foldl_mem _ _ _ _ hp, dget_foldl_mem argv _ _ _ hp]
  congr 1
  have hpairs : reprPairs (buildStruct name d escape false) dflt
      ((buildStruct name d escape false).initAssigns.foldl
        (fun i a => dset i a (argv a)) [])
      = ((buildStruct name d escape false).params.map (·.1)).map
          (fun q => (q, (dget ((buildStruct name d escape false).initAssigns.foldl
            (fun i a => dset i a (argv a)) []) q).getD dflt)) := by
    unfold reprPairs
    rw [List.map_map]
    rfl
  rw [hpairs, buildStruct_param_names, dget_map_self _ _ _ hp,
    dget_foldl_mem argv _ _ _ hp]
  rfl

/-- C9 witness: the representation round-trip on a two-field record. -/
theorem c9_repr_roundtrip_witness :
    dget (buildStruct "S" c9w false false).own "__repr__" = some Member.reprDefault
    ∧ ∃ i1, runInit (buildStruct "S" c9w false false) id (fun _ => 7) = InitRes.ok i1
        ∧ ∃ i2, runInit (buildStruct "S" c9w false false) id
            (fun q => (dget (reprPairs (buildStruct "S" c9w false false) 0 i1) q).getD 0)
            = InitRes.ok i2
          ∧ ∀ p ∈ (buildStruct "S" c9w false false).params.map (·.1),
              dget i2 p = dget i1 p :=
  ⟨(c9_repr_roundtrip Nat 0 "S" c9w false (by decide) (by decide) (by decide)
      (by decide)).1,
   (c9_repr_roundtrip Nat 0 "S" c9w false (by decide) (by decide) (by decide)
      (by decide)).2 id (fun _ => 7)⟩

/-- C9 counterexample: a record whose `_init` hook increments field `a`
breaks the round-trip law: the original instance holds `a = 1`, but
reconstructing from its printed field/value pairs re-runs the hook and
yields `a = 2`. -/
theorem c9_counterexample :
    runInit c9bsc c9hook (fun _ => 0) = InitRes.ok [("a", 1)]
    ∧ runInit c9bsc c9hook
        (fun q => (dget (reprPairs c9bsc 0 [("a", 1)]) q).getD 0) = InitRes.ok [("a", 2)]
    ∧ dget [(("a" : String), (2 : Nat))] "a" ≠ dget [(("a" : String), (1 : Nat))] "a" := by
  decide

/-- C10: an explicitly requested operation name that is neither a catalog
category nor a template-store entry, and is not already an attribute of the
class, gets a generically synthesized forwarding method attached: the
rendered source is exactly `mkmethod`'s
`def N(self, *args, **kwargs): return self.<attr>.N(*args, **kwargs)`,
which calls the same-named method on the delegate field's value with all
positional and keyword arguments. -/
theorem c10_generic_forwarder (V : Type) (own : Own) (attr nm : String)
    (dfl : Option V)
    (hcat : dget interfaces nm = none)
    (hstore : dget templates nm = none)
    (habs : hasattrB own nm = false) :
    dget (compose own [(attr, (⟨[PArg.str nm], dfl⟩ : Prov V))]) nm
        = some (Member.generated attr nm)
    ∧ getmethod attr nm = mkmethodSrc attr nm := by
  constructor
  · have hres : resolvedOps [(attr, (⟨[PArg.str nm], dfl⟩ : Prov V))] = [(attr, nm)] := by
      unfold resolvedOps
      simp [unpack, hcat]
    unfold compose
    rw [hres]
    show dget (composeStep own attr nm) nm = some (Member.generated attr nm)
    unfold composeStep
    rw [habs]
    show dget (dset own nm (Member.generated attr nm)) nm
        = some (Member.generated attr nm)
    exact dget_dset_self own nm (Member.generated attr nm)
  · unfold getmethod
    rw [hstore]

/-- C10 witness: the generic forwarder for the unknown operation `flurp`
delegating to the `data` field. -/
theorem c10_generic_forwarder_witness :
    dget (compose [] [("data", (⟨[PArg.str "flurp"], none⟩ : Prov Nat))]) "flurp"
        = some (Member.generated "data" "flurp")
    ∧ getmethod "data" "flurp" = mkmethodSrc "data" "flurp"
    ∧ mkmethodSrc "data" "flurp"
        = ("def flurp(self, *args, **kwargs): return self.data.flurp(*args, **kwargs)").data :=
  ⟨(c10_generic_forwarder Nat [] "data" "flurp" none (by decide) (by decide)
      (by decide)).1,
   (c10_generic_forwarder Nat [] "data" "flurp" none (by decide) (by decide)
      (by decide)).2,
   by decide⟩

end ComposeStruct
